import Mathlib

/-!
Verification of the two PyFlink example jobs in this repository
(src/python/FirehoseSink/main.py and src/python/S3Sink/main.py).

The jobs are almost entirely declarative: a runtime-configuration lookup,
two CREATE TABLE statements, and an INSERT INTO ... SELECT. The embedding
below models, from the sources:

  - the property-group configuration lookup (property_map, and the way
    main() subscripts its result), including the Python exceptions its
    failure modes raise;
  - the is_local flag derived from the IS_LOCAL environment variable;
  - the WITH-clause options and schemas of the tables each job creates,
    as structured data, together with the SELECT projections;
  - the sequence of actions main() performs, so that the local-mode
    wait branch can be stated.

The checkpoint coordinator, the partitioned file sink and its commit
policy live in the underlying engine, not in this repository; where a
claim is decided by that behavior, the definitions are modelled from the
spec and say so in their doc comments.
-/

/-- One entry of the parsed application_properties.json array: a named
property group with its key/value map. -/
structure PropEntry where
  propertyGroupId : String
  propertyMap : List (String × String)
deriving DecidableEq

/-- Python runtime errors that the configuration-extraction code paths of
both main() functions can raise. -/
inductive PyError where
  | typeError (msg : String)
  | keyError (key : String)
deriving DecidableEq

/-- The message text Python prints for an uncaught error of each kind. -/
def PyError.message : PyError → String
  | .typeError msg => msg
  | .keyError key => "KeyError: " ++ key

/-- property_map(props, property_group_id) from both main.py files: scan the
list and return the PropertyMap of the first entry whose PropertyGroupId
equals the requested id; falling off the loop returns None. -/
def property_map : List PropEntry → String → Option (List (String × String))
  | [], _ => none
  | p :: ps, gid =>
    if p.propertyGroupId == gid then some p.propertyMap else property_map ps gid

/-- A call property_map(props, gid) where props may be Python None (the
configuration file was absent, so get_application_properties returned
None): iterating None raises a TypeError. -/
def property_map_call (props : Option (List PropEntry)) (gid : String) :
    Except PyError (Option (List (String × String))) :=
  match props with
  | none => .error (.typeError "TypeError: NoneType object is not iterable")
  | some l => .ok (property_map l gid)

/-- Python subscription d[key] where d is the result of property_map and may
be None: subscripting None raises a TypeError, a missing dictionary key
raises a KeyError naming the key. -/
def pySubscript (d : Option (List (String × String))) (key : String) :
    Except PyError String :=
  match d with
  | none => .error (.typeError "TypeError: NoneType object is not subscriptable")
  | some m =>
    match m.lookup key with
    | none => .error (.keyError key)
    | some v => .ok v

/-- The configuration-retrieval step of FirehoseSink main():
property_map(props, "OutputDeliveryStream0")["stream.name"] followed by
property_map(props, "OutputDeliveryStream0")["aws.region"], with Python
exception propagation made explicit. -/
def firehoseConfig (props : Option (List PropEntry)) :
    Except PyError (String × String) :=
  match property_map_call props "OutputDeliveryStream0" with
  | .error e => .error e
  | .ok pm1 =>
    match pySubscript pm1 "stream.name" with
    | .error e => .error e
    | .ok name =>
      match property_map_call props "OutputDeliveryStream0" with
      | .error e => .error e
      | .ok pm2 =>
        match pySubscript pm2 "aws.region" with
        | .error e => .error e
        | .ok region => .ok (name, region)

/-- The configuration-retrieval step of S3Sink main():
property_map(props, "bucket")["name"]. -/
def s3Config (props : Option (List PropEntry)) : Except PyError String :=
  match property_map_call props "bucket" with
  | .error e => .error e
  | .ok pm => pySubscript pm "name"

/-- Exit status of the FirehoseSink process as determined by the
configuration step: an exception escaping main() makes the interpreter
exit with status 1, success hands the job to the framework. -/
def firehoseExitStatus (props : Option (List PropEntry)) : Nat :=
  match firehoseConfig props with
  | .ok _ => 0
  | .error _ => 1

/-- Exit status of the S3Sink process as determined by the configuration
step. -/
def s3ExitStatus (props : Option (List PropEntry)) : Nat :=
  match s3Config props with
  | .ok _ => 0
  | .error _ => 1

/-- Python truthiness of the result of os.environ.get: None and the empty
string are falsy, every other string is truthy. -/
def pyTruthy : Option String → Bool
  | none => false
  | some s => !s.isEmpty

/-- is_local from both main.py files:
True if os.environ.get("IS_LOCAL") else False. -/
def is_local (isLocalEnv : Option String) : Bool :=
  if pyTruthy isLocalEnv then true else false

/-- Substring search over char lists, used to state whether an error
message mentions a given property name. -/
def listContainsSub : List Char → List Char → Bool
  | [], needle => needle.isEmpty
  | c :: tl, needle => List.isPrefixOf needle (c :: tl) || listContainsSub tl needle

/-- hay mentions needle: needle occurs as a contiguous substring of hay. -/
def strMentions (hay needle : String) : Bool :=
  listContainsSub hay.toList needle.toList

/-- WITH-clause options of the FirehoseSink sink table named output, as
created by main() with the configured stream name and region interpolated. -/
def firehoseOutputOptions (streamName region : String) : List (String × String) :=
  [("connector", "firehose"),
   ("delivery-stream", streamName),
   ("aws.region", region),
   ("format", "json"),
   ("json.timestamp-format.standard", "ISO-8601")]

/-- WITH-clause options of the S3Sink sink table named sensors_out, as
created by main() with the configured bucket name interpolated into the
path. -/
def sensorsOutOptions (bucket : String) : List (String × String) :=
  [("connector", "filesystem"),
   ("path", "s3a://" ++ bucket ++ "/pyflinkl-filesink-example-output/"),
   ("format", "json"),
   ("json.timestamp-format.standard", "ISO-8601"),
   ("sink.partition-commit.policy.kind", "success-file"),
   ("sink.partition-commit.delay", "1 min")]

/-- Checkpoint configuration set at module scope by S3Sink main.py when
is_local holds; hardcoded strings, not read from the property groups. When
not local, checkpointing is controlled by the managed platform, likewise
outside the property groups the code reads. -/
def s3LocalCheckpointConfig : List (String × String) :=
  [("execution.checkpointing.mode", "EXACTLY_ONCE"),
   ("execution.checkpointing.interval", "1 min")]

/-- The sink-table options S3Sink main() actually creates, as a function of
the parsed runtime properties. -/
def s3MainSinkOptions (props : Option (List PropEntry)) :
    Except PyError (List (String × String)) :=
  match s3Config props with
  | .error e => .error e
  | .ok b => .ok (sensorsOutOptions b)

/-- The sink-table options FirehoseSink main() actually creates, as a
function of the parsed runtime properties. -/
def firehoseMainSinkOptions (props : Option (List PropEntry)) :
    Except PyError (List (String × String)) :=
  match firehoseConfig props with
  | .error e => .error e
  | .ok nr => .ok (firehoseOutputOptions nr.1 nr.2)

/-- C9: property_map returns the PropertyMap of the first entry whose group
id matches and None when no entry matches; consequently, when the
configuration file exists but lacks the required group, FirehoseSink
main() dies subscripting None (a TypeError), not with a named
configuration error. -/
theorem C9_property_map_first_match :
    (∀ props gid, property_map props gid =
      (props.find? fun p => p.propertyGroupId == gid).map PropEntry.propertyMap) ∧
    (∀ props : List PropEntry,
      property_map props "OutputDeliveryStream0" = none →
      firehoseConfig (some props) =
        .error (.typeError "TypeError: NoneType object is not subscriptable")) := by
  constructor
  · intro props gid
    induction props with
    | nil => rfl
    | cons p ps ih =>
      by_cases h : p.propertyGroupId == gid
      · simp [property_map, List.find?, h]
      · simp only [Bool.not_eq_true] at h
        simp [property_map, List.find?, h, ih]
  · intro props h
    simp [firehoseConfig, property_map_call, h, pySubscript]

/-- Witness for C9 at a concrete configuration lacking the required group. -/
theorem C9_property_map_first_match_witness :
    firehoseConfig (some [⟨"SomeOtherGroup", [("stream.name", "s")]⟩]) =
      .error (.typeError "TypeError: NoneType object is not subscriptable") :=
  C9_property_map_first_match.2 [⟨"SomeOtherGroup", [("stream.name", "s")]⟩] (by decide)

/-- C10: is_local is true exactly when the IS_LOCAL environment variable is
set to a non-empty string; any non-empty value, including "false" and "0",
yields true, while unset or empty yields false. Both main.py files define
is_local by this same expression. -/
theorem C10_is_local_iff_nonempty :
    (∀ env : Option String, is_local env = true ↔ ∃ s, env = some s ∧ s ≠ "") ∧
    is_local (some "false") = true ∧
    is_local (some "0") = true ∧
    is_local none = false ∧
    is_local (some "") = false := by
  refine ⟨?_, by decide, by decide, rfl, by decide⟩
  intro env
  cases env with
  | none => simp [is_local, pyTruthy]
  | some s =>
    constructor
    · intro h
      refine ⟨s, rfl, fun hs => ?_⟩
      subst hs
      exact absurd h (by decide)
    · rintro ⟨t, ht, hne⟩
      cases ht
      simp only [is_local, pyTruthy]
      have he : s.isEmpty = false := by
        cases hie : s.isEmpty with
        | false => rfl
        | true => exact absurd ((String.isEmpty_iff s).mp hie) hne
      simp [he]

/-- C1 counterexample: with a configuration file present but lacking the
required property group OutputDeliveryStream0, FirehoseSink main() dies
with a generic TypeError from subscripting None; the message names neither
the missing property group nor the missing key, contradicting the claim
that every missing-configuration run terminates with a descriptive message
naming the missing property. -/
theorem C1_counterexample :
    firehoseConfig (some [⟨"SomeGroup", [("stream.name", "s")]⟩]) =
      .error (.typeError "TypeError: NoneType object is not subscriptable") ∧
    strMentions (PyError.message
      (.typeError "TypeError: NoneType object is not subscriptable"))
      "OutputDeliveryStream0" = false ∧
    strMentions (PyError.message
      (.typeError "TypeError: NoneType object is not subscriptable"))
      "stream.name" = false := by
  refine ⟨rfl, by decide, by decide⟩

/-- C1 (amended): whenever the runtime configuration is missing — the
properties file absent, a required property group absent, or a required
key absent — the configuration step of main() raises an unhandled Python
exception, so the process fails fast with exit status 1 rather than
running degraded; however the exception is a generic TypeError naming
nothing when the file or the group is missing, and only a missing key
inside a present group yields a KeyError whose message names that key. -/
theorem C1_amended_fail_fast :
    (firehoseExitStatus none = 1 ∧ s3ExitStatus none = 1) ∧
    (∀ props : List PropEntry,
      property_map props "OutputDeliveryStream0" = none →
      firehoseExitStatus (some props) = 1 ∧
      firehoseConfig (some props) =
        .error (.typeError "TypeError: NoneType object is not subscriptable")) ∧
    (∀ props pm, property_map props "OutputDeliveryStream0" = some pm →
      pm.lookup "stream.name" = none →
      firehoseExitStatus (some props) = 1 ∧
      firehoseConfig (some props) = .error (.keyError "stream.name")) ∧
    (∀ props pm name, property_map props "OutputDeliveryStream0" = some pm →
      pm.lookup "stream.name" = some name → pm.lookup "aws.region" = none →
      firehoseExitStatus (some props) = 1 ∧
      firehoseConfig (some props) = .error (.keyError "aws.region")) ∧
    (∀ props : List PropEntry, property_map props "bucket" = none →
      s3ExitStatus (some props) = 1 ∧
      s3Config (some props) =
        .error (.typeError "TypeError: NoneType object is not subscriptable")) ∧
    (∀ props pm, property_map props "bucket" = some pm →
      pm.lookup "name" = none →
      s3ExitStatus (some props) = 1 ∧
      s3Config (some props) = .error (.keyError "name")) ∧
    strMentions (PyError.message (.keyError "stream.name")) "stream.name" = true ∧
    strMentions (PyError.message (.keyError "name")) "name" = true := by
  refine ⟨⟨rfl, rfl⟩, ?_, ?_, ?_, ?_, ?_, by decide, by decide⟩
  · intro props h
    constructor
    · simp [firehoseExitStatus, firehoseConfig, property_map_call, h, pySubscript]
    · simp [firehoseConfig, property_map_call, h, pySubscript]
  · intro props pm h hk
    constructor
    · simp [firehoseExitStatus, firehoseConfig, property_map_call, h, pySubscript, hk]
    · simp [firehoseConfig, property_map_call, h, pySubscript, hk]
  · intro props pm name h hk hr
    constructor
    · simp [firehoseExitStatus, firehoseConfig, property_map_call, h, pySubscript, hk, hr]
    · simp [firehoseConfig, property_map_call, h, pySubscript, hk, hr]
  · intro props h
    constructor
    · simp [s3ExitStatus, s3Config, property_map_call, h, pySubscript]
    · simp [s3Config, property_map_call, h, pySubscript]
  · intro props pm h hk
    constructor
    · simp [s3ExitStatus, s3Config, property_map_call, h, pySubscript, hk]
    · simp [s3Config, property_map_call, h, pySubscript, hk]

/-- Witness for C1 (amended) at concrete missing-configuration inputs: an
empty group list, a group present without its key, and a group with the
stream name but no region. -/
theorem C1_amended_fail_fast_witness :
    firehoseExitStatus (some []) = 1 ∧
    firehoseExitStatus (some [⟨"OutputDeliveryStream0", []⟩]) = 1 ∧
    firehoseExitStatus (some [⟨"OutputDeliveryStream0", [("stream.name", "s")]⟩]) = 1 ∧
    s3ExitStatus (some []) = 1 ∧
    s3ExitStatus (some [⟨"bucket", [("other", "v")]⟩]) = 1 :=
  ⟨(C1_amended_fail_fast.2.1 [] (by decide)).1,
   (C1_amended_fail_fast.2.2.1 [⟨"OutputDeliveryStream0", []⟩] [] (by decide) (by decide)).1,
   (C1_amended_fail_fast.2.2.2.1 [⟨"OutputDeliveryStream0", [("stream.name", "s")]⟩]
     [("stream.name", "s")] "s" (by decide) (by decide) (by decide)).1,
   (C1_amended_fail_fast.2.2.2.2.1 [] (by decide)).1,
   (C1_amended_fail_fast.2.2.2.2.2.1 [⟨"bucket", [("other", "v")]⟩] [("other", "v")]
     (by decide) (by decide)).1⟩

/-- Runtime properties that supply the bucket name and additionally request,
through property groups, a commit delay, checkpoint interval and
checkpointing mode different from the hardcoded ones. -/
def propsWithTunables : List PropEntry :=
  [⟨"bucket", [("name", "my-bucket")]⟩,
   ⟨"sink", [("sink.partition-commit.delay", "5 min"),
             ("execution.checkpointing.interval", "30 s"),
             ("execution.checkpointing.mode", "AT_LEAST_ONCE")]⟩]

/-- C2 counterexample: not every tunable the core depends on is supplied
through the property-group configuration. At a concrete deployment whose
property groups request a 5 min commit delay, a 30 s checkpoint interval
and AT_LEAST_ONCE mode, the S3Sink job still creates its sink with the
hardcoded commit delay of 1 min, and the local-mode checkpoint settings
are the hardcoded 1 min interval and EXACTLY_ONCE mode: these values are
string literals in the code, not configuration lookups. -/
theorem C2_counterexample :
    s3MainSinkOptions (some propsWithTunables) = .ok (sensorsOutOptions "my-bucket") ∧
    (sensorsOutOptions "my-bucket").lookup "sink.partition-commit.delay" =
      some "1 min" ∧
    s3LocalCheckpointConfig.lookup "execution.checkpointing.interval" =
      some "1 min" ∧
    s3LocalCheckpointConfig.lookup "execution.checkpointing.mode" =
      some "EXACTLY_ONCE" :=
  ⟨rfl, rfl, rfl, rfl⟩

/-- C2 (amended): the delivery-stream name and region (FirehoseSink) and the
bucket name (S3Sink) are supplied through the property-group configuration
and flow into the created sink tables; the object-store path is the
configured bucket with a fixed suffix; the commit delay is the hardcoded
literal 1 min, and the checkpoint interval and mode set in local mode are
the hardcoded literals 1 min and EXACTLY_ONCE, none of them read from the
property groups. -/
theorem C2_amended_tunables :
    (∀ name region,
      (firehoseOutputOptions name region).lookup "delivery-stream" = some name ∧
      (firehoseOutputOptions name region).lookup "aws.region" = some region) ∧
    (∀ props nr, firehoseConfig props = .ok nr →
      firehoseMainSinkOptions props = .ok (firehoseOutputOptions nr.1 nr.2)) ∧
    (∀ b, (sensorsOutOptions b).lookup "path" =
        some ("s3a://" ++ b ++ "/pyflinkl-filesink-example-output/") ∧
      (sensorsOutOptions b).lookup "sink.partition-commit.delay" = some "1 min") ∧
    (∀ props b, s3Config props = .ok b →
      s3MainSinkOptions props = .ok (sensorsOutOptions b)) ∧
    s3LocalCheckpointConfig.lookup "execution.checkpointing.mode" =
      some "EXACTLY_ONCE" ∧
    s3LocalCheckpointConfig.lookup "execution.checkpointing.interval" =
      some "1 min" := by
  refine ⟨fun name region => ⟨rfl, rfl⟩, ?_, fun b => ⟨rfl, rfl⟩, ?_, rfl, rfl⟩
  · intro props nr h
    simp [firehoseMainSinkOptions, h]
  · intro props b h
    simp [s3MainSinkOptions, h]

/-- Witness for C2 (amended) at concrete complete configurations for both
jobs. -/
theorem C2_amended_tunables_witness :
    firehoseMainSinkOptions
      (some [⟨"OutputDeliveryStream0", [("stream.name", "s"), ("aws.region", "r")]⟩]) =
      .ok (firehoseOutputOptions "s" "r") ∧
    s3MainSinkOptions (some propsWithTunables) = .ok (sensorsOutOptions "my-bucket") :=
  ⟨C2_amended_tunables.2.1
      (some [⟨"OutputDeliveryStream0", [("stream.name", "s"), ("aws.region", "r")]⟩])
      ("s", "r") rfl,
   C2_amended_tunables.2.2.2.1 (some propsWithTunables) "my-bucket" rfl⟩

/-- C7: for every configured stream name and region, the FirehoseSink sink
is declared with the firehose connector targeting that delivery stream in
that region, JSON serialization with ISO-8601 timestamps, and no further
options: the option keys are exactly the connector, target, region, format
and timestamp-format keys, so no schema negotiation beyond field names and
order is configured. -/
theorem C7_firehose_json_iso8601 :
    ∀ streamName region,
      (firehoseOutputOptions streamName region).lookup "connector" =
        some "firehose" ∧
      (firehoseOutputOptions streamName region).lookup "delivery-stream" =
        some streamName ∧
      (firehoseOutputOptions streamName region).lookup "aws.region" =
        some region ∧
      (firehoseOutputOptions streamName region).lookup "format" = some "json" ∧
      (firehoseOutputOptions streamName region).lookup
        "json.timestamp-format.standard" = some "ISO-8601" ∧
      (firehoseOutputOptions streamName region).map Prod.fst =
        ["connector", "delivery-stream", "aws.region", "format",
         "json.timestamp-format.standard"] :=
  fun _ _ => ⟨rfl, rfl, rfl, rfl, rfl, rfl⟩

/-- Values flowing through the jobs: integer sensor ids, numeric temperature
readings and millisecond timestamps. No arithmetic is ever applied to
them, only projection. -/
inductive SqlValue where
  | vInt (n : Int)
  | vNum (q : Rat)
  | vTs (millis : Int)
deriving DecidableEq

/-- One row of the sensor_readings source table of both jobs: sensor_id INT,
temperature numeric, measurement_time TIMESTAMP(3). -/
structure SensorReading where
  sensor_id : Int
  temperature : Rat
  measurement_time : Int
deriving DecidableEq

/-- Column access on a source row by column name. -/
def SensorReading.getCol (r : SensorReading) (c : String) : Option SqlValue :=
  if c == "sensor_id" then some (.vInt r.sensor_id)
  else if c == "temperature" then some (.vNum r.temperature)
  else if c == "measurement_time" then some (.vTs r.measurement_time)
  else none

/-- Projection expressions appearing in the SELECT lists of both INSERT
statements: every select item of both jobs is a plain column reference. -/
inductive SqlExpr where
  | col (name : String)
deriving DecidableEq

/-- Evaluate a projection expression on one source row. -/
def evalExpr (r : SensorReading) : SqlExpr → Option SqlValue
  | .col c => r.getCol c

/-- SELECT list of the FirehoseSink INSERT, paired positionally with the
columns of the output table: SELECT sensor_id, temperature,
measurement_time into (sensor_id, temperature_f, measurement_time). -/
def firehoseSelectList : List (String × SqlExpr) :=
  [("sensor_id", .col "sensor_id"),
   ("temperature_f", .col "temperature"),
   ("measurement_time", .col "measurement_time")]

/-- SELECT list of the S3Sink INSERT: SELECT sensor_id, temperature,
measurement_time as time into (sensor_id, temperature, time). -/
def s3SelectList : List (String × SqlExpr) :=
  [("sensor_id", .col "sensor_id"),
   ("temperature", .col "temperature"),
   ("time", .col "measurement_time")]

/-- Evaluate an INSERT INTO ... SELECT projection on one source row,
producing the named sink row, or none if some column is unknown. -/
def evalSelect (sel : List (String × SqlExpr)) (r : SensorReading) :
    Option (List (String × SqlValue)) :=
  sel.mapM fun ce => (evalExpr r ce.2).map fun v => (ce.1, v)

/-- C5: neither job transforms data between source and sink. For every
source record, evaluating the FirehoseSink projection yields exactly the
source values under the renamed column temperature_f, and evaluating the
S3Sink projection yields exactly the source values under the renamed
column time; no value is converted. -/
theorem C5_no_data_transform :
    ∀ r : SensorReading,
      evalSelect firehoseSelectList r =
        some [("sensor_id", .vInt r.sensor_id),
              ("temperature_f", .vNum r.temperature),
              ("measurement_time", .vTs r.measurement_time)] ∧
      evalSelect s3SelectList r =
        some [("sensor_id", .vInt r.sensor_id),
              ("temperature", .vNum r.temperature),
              ("time", .vTs r.measurement_time)] :=
  fun _ => ⟨rfl, rfl⟩

/-- Shallow embedding of the SQL statements the jobs execute: table creation
with schema, partitioning and connector options, and the INSERT INTO ...
SELECT statements. -/
inductive SqlStmt where
  | createTable (name : String) (columns : List (String × String))
      (partitionedBy : List String) (options : List (String × String))
  | insertInto (table : String) (select : List (String × SqlExpr))
      (source : String)
deriving DecidableEq

/-- The PARTITIONED BY clause of a statement. -/
def partitionedByOf : SqlStmt → List String
  | .createTable _ _ pb _ => pb
  | .insertInto _ _ _ => []

/-- Options of the datagen source table, identical in both jobs. -/
def datagenOptions : List (String × String) :=
  [("connector", "datagen"),
   ("fields.sensor_id.min", "10"),
   ("fields.sensor_id.max", "20"),
   ("fields.temperature.min", "0"),
   ("fields.temperature.max", "100")]

/-- The sensor_readings source table of FirehoseSink. -/
def firehoseSourceTable : SqlStmt :=
  .createTable "sensor_readings"
    [("sensor_id", "INT"), ("temperature", "DOUBLE"),
     ("measurement_time", "TIMESTAMP(3)")]
    ["sensor_id"] datagenOptions

/-- The output sink table of FirehoseSink with the configured stream name
and region. -/
def firehoseSinkTable (streamName region : String) : SqlStmt :=
  .createTable "output"
    [("sensor_id", "INT"), ("temperature_f", "DOUBLE"),
     ("measurement_time", "TIMESTAMP(3)")]
    [] (firehoseOutputOptions streamName region)

/-- The INSERT INTO output statement of FirehoseSink. -/
def firehoseInsertStmt : SqlStmt :=
  .insertInto "output" firehoseSelectList "sensor_readings"

/-- The sensor_readings source table of S3Sink. -/
def s3SourceTable : SqlStmt :=
  .createTable "sensor_readings"
    [("sensor_id", "INT"), ("temperature", "NUMERIC(6,2)"),
     ("measurement_time", "TIMESTAMP(3)")]
    ["sensor_id"] datagenOptions

/-- The sensors_out sink table of S3Sink with the configured bucket. -/
def sensorsOutTable (bucket : String) : SqlStmt :=
  .createTable "sensors_out"
    [("sensor_id", "INT NOT NULL"), ("temperature", "NUMERIC(6,2) NOT NULL"),
     ("time", "TIMESTAMP_LTZ(3) NOT NULL")]
    ["sensor_id"] (sensorsOutOptions bucket)

/-- The INSERT INTO sensors_out statement of S3Sink. -/
def s3InsertStmt : SqlStmt :=
  .insertInto "sensors_out" s3SelectList "sensor_readings"

/-- Actions main() performs against the table environment and the table
result handle. -/
inductive FlinkAction where
  | executeSql (stmt : SqlStmt)
  | waitForResult
deriving DecidableEq

/-- The SQL statements among a list of actions. -/
def sqlActions (acts : List FlinkAction) : List SqlStmt :=
  acts.filterMap fun a =>
    match a with
    | .executeSql s => some s
    | .waitForResult => none

/-- The sequence of actions FirehoseSink main() performs after the
configuration step: create the source table, create the sink table, run
the INSERT, and — only when is_local — wait on the table result. A
configuration failure raises before any action. -/
def firehoseMainActions (isLocal : Bool) (props : Option (List PropEntry)) :
    Except PyError (List FlinkAction) :=
  match firehoseConfig props with
  | .error e => .error e
  | .ok nr =>
    .ok ([.executeSql firehoseSourceTable,
          .executeSql (firehoseSinkTable nr.1 nr.2),
          .executeSql firehoseInsertStmt] ++
         (if isLocal then [.waitForResult] else []))

/-- The sequence of actions S3Sink main() performs after the configuration
step. -/
def s3MainActions (isLocal : Bool) (props : Option (List PropEntry)) :
    Except PyError (List FlinkAction) :=
  match s3Config props with
  | .error e => .error e
  | .ok b =>
    .ok ([.executeSql s3SourceTable,
          .executeSql (sensorsOutTable b),
          .executeSql s3InsertStmt] ++
         (if isLocal then [.waitForResult] else []))

/-- C8: in both jobs, main() blocks on the table result exactly when the
run-mode flag indicates local mode — the wait action appears in the trace
iff is_local — and this branching does not affect the SQL statements
executed, hence not the checkpoint or commit behavior they configure:
the executed statements are identical for every value of the flag. -/
theorem C8_wait_iff_local :
    (∀ (isLocal : Bool) props acts,
      firehoseMainActions isLocal props = .ok acts →
      (FlinkAction.waitForResult ∈ acts ↔ isLocal = true)) ∧
    (∀ (il il' : Bool) props acts acts',
      firehoseMainActions il props = .ok acts →
      firehoseMainActions il' props = .ok acts' →
      sqlActions acts = sqlActions acts') ∧
    (∀ (isLocal : Bool) props acts,
      s3MainActions isLocal props = .ok acts →
      (FlinkAction.waitForResult ∈ acts ↔ isLocal = true)) ∧
    (∀ (il il' : Bool) props acts acts',
      s3MainActions il props = .ok acts →
      s3MainActions il' props = .ok acts' →
      sqlActions acts = sqlActions acts') := by
  refine ⟨?_, ?_, ?_, ?_⟩
  · intro isLocal props acts h
    match hc : firehoseConfig props with
    | .error e => simp [firehoseMainActions, hc] at h
    | .ok nr =>
      simp only [firehoseMainActions, hc] at h
      cases h
      cases isLocal <;> simp
  · intro il il' props acts acts' h h'
    match hc : firehoseConfig props with
    | .error e => simp [firehoseMainActions, hc] at h
    | .ok nr =>
      simp only [firehoseMainActions, hc] at h h'
      cases h
      cases h'
      cases il <;> cases il' <;> simp [sqlActions]
  · intro isLocal props acts h
    match hc : s3Config props with
    | .error e => simp [s3MainActions, hc] at h
    | .ok b =>
      simp only [s3MainActions, hc] at h
      cases h
      cases isLocal <;> simp
  · intro il il' props acts acts' h h'
    match hc : s3Config props with
    | .error e => simp [s3MainActions, hc] at h
    | .ok b =>
      simp only [s3MainActions, hc] at h h'
      cases h
      cases h'
      cases il <;> cases il' <;> simp [sqlActions]

/-- Witness for C8 at a concrete complete configuration for each job and
both values of the flag. -/
theorem C8_wait_iff_local_witness :
    (FlinkAction.waitForResult ∈
      ([.executeSql firehoseSourceTable,
        .executeSql (firehoseSinkTable "s" "r"),
        .executeSql firehoseInsertStmt, .waitForResult] : List FlinkAction) ↔
      (true : Bool) = true) ∧
    (FlinkAction.waitForResult ∈
      ([.executeSql s3SourceTable,
        .executeSql (sensorsOutTable "my-bucket"),
        .executeSql s3InsertStmt] : List FlinkAction) ↔
      (false : Bool) = true) :=
  ⟨C8_wait_iff_local.1 true
      (some [⟨"OutputDeliveryStream0", [("stream.name", "s"), ("aws.region", "r")]⟩])
      _ rfl,
   C8_wait_iff_local.2.2.1 false (some propsWithTunables) _ rfl⟩

/-- Modelled from the spec: the status of a checkpoint (spec data model,
Checkpoint). The checkpoint coordinator is part of the underlying
stream-processing engine and is not among this repository's sources; it
is modelled from the coordinator section of the spec. -/
inductive CkptStatus where
  | pending
  | durable
  | aborted
deriving DecidableEq

/-- Modelled from the spec: the coordinator state. Checkpoint ids are
allocated as previous plus one starting from 1, and checkpoints records
every allocated id with its current status. -/
structure CoordState where
  nextId : Nat
  checkpoints : List (Nat × CkptStatus)
deriving DecidableEq

/-- The coordinator state at process start: nothing allocated, the first
checkpoint will receive id 1. -/
def initCoord : CoordState := ⟨1, []⟩

/-- The number of checkpoints currently PENDING. -/
def pendingCount (st : CoordState) : Nat :=
  (st.checkpoints.filter fun c => c.2 == CkptStatus.pending).length

/-- Overwrite the status of the checkpoint with the given id. -/
def setStatus (l : List (Nat × CkptStatus)) (cid : Nat) (s : CkptStatus) :
    List (Nat × CkptStatus) :=
  l.map fun c => if c.1 == cid then (c.1, s) else c

/-- Modelled from the spec: coordinator events — start a checkpoint
(allocate its id and broadcast the barrier), declare it durable once all
writers acknowledged, or abort it on a writer failure or timeout. -/
inductive CoordEvent where
  | startCkpt
  | finishCkpt (cid : Nat)
  | abortCkpt (cid : Nat)
deriving DecidableEq

/-- Modelled from the spec: the coordinator transition relation. A barrier
for a new checkpoint begins only when no allocated checkpoint is still
PENDING; declaring durable or aborting requires the checkpoint to be
PENDING. -/
inductive CoordStep : CoordState → CoordEvent → CoordState → Prop where
  | start {st : CoordState} :
      pendingCount st = 0 →
      CoordStep st .startCkpt
        ⟨st.nextId + 1, (st.nextId, CkptStatus.pending) :: st.checkpoints⟩
  | finish {st : CoordState} {cid : Nat} :
      (cid, CkptStatus.pending) ∈ st.checkpoints →
      CoordStep st (.finishCkpt cid)
        ⟨st.nextId, setStatus st.checkpoints cid CkptStatus.durable⟩
  | abortStep {st : CoordState} {cid : Nat} :
      (cid, CkptStatus.pending) ∈ st.checkpoints →
      CoordStep st (.abortCkpt cid)
        ⟨st.nextId, setStatus st.checkpoints cid CkptStatus.aborted⟩

/-- Reachability of a coordinator state by a trace of events. -/
inductive CoordReaches : CoordState → List CoordEvent → CoordState → Prop where
  | done (st : CoordState) : CoordReaches st [] st
  | step {st st' st'' : CoordState} {e : CoordEvent} {tr : List CoordEvent} :
      CoordStep st e st' → CoordReaches st' tr st'' →
      CoordReaches st (e :: tr) st''

/-- Coordinator invariant: ids are positive and below nextId, every
allocated id below nextId is recorded with some status, and at most one
checkpoint is PENDING. -/
def CoordInv (st : CoordState) : Prop :=
  1 ≤ st.nextId ∧
  (∀ c ∈ st.checkpoints, 1 ≤ c.1 ∧ c.1 < st.nextId) ∧
  (∀ i, 1 ≤ i → i < st.nextId → ∃ s, (i, s) ∈ st.checkpoints) ∧
  pendingCount st ≤ 1

lemma setStatus_exists {l : List (Nat × CkptStatus)} {i : Nat} {s0 : CkptStatus}
    (h : (i, s0) ∈ l) (cid : Nat) (s : CkptStatus) :
    ∃ s1, (i, s1) ∈ setStatus l cid s := by
  refine ⟨if i == cid then s else s0, ?_⟩
  have hm := List.mem_map_of_mem (fun c => if c.1 == cid then (c.1, s) else c) h
  have heq : (fun (c : Nat × CkptStatus) => if c.1 == cid then (c.1, s) else c) (i, s0)
      = (i, if i == cid then s else s0) := by
    by_cases h2 : (i == cid) = true <;> simp [h2]
  rw [heq] at hm
  exact hm

lemma countPending_setStatus_le (l : List (Nat × CkptStatus)) (cid : Nat)
    (s : CkptStatus) (hs : (s == CkptStatus.pending) = false) :
    ((setStatus l cid s).filter fun c => c.2 == CkptStatus.pending).length ≤
      (l.filter fun c => c.2 == CkptStatus.pending).length := by
  rw [← List.countP_eq_length_filter, ← List.countP_eq_length_filter, setStatus,
    List.countP_map]
  apply List.countP_mono_left
  intro c _ hc
  simp only [Function.comp] at hc
  by_cases h1 : (c.1 == cid) = true
  · rw [if_pos h1] at hc
    exact absurd hc (by simp [hs])
  · rw [if_neg h1] at hc
    exact hc

lemma pending_mem_count {st : CoordState} {i : Nat}
    (h : (i, CkptStatus.pending) ∈ st.checkpoints) : 1 ≤ pendingCount st := by
  have hmem : (i, CkptStatus.pending) ∈
      st.checkpoints.filter fun c => c.2 == CkptStatus.pending :=
    List.mem_filter.mpr ⟨h, by simp⟩
  exact List.length_pos.mpr (List.ne_nil_of_mem hmem)

lemma coordStep_inv {st st' : CoordState} {e : CoordEvent}
    (hs : CoordStep st e st') (hi : CoordInv st) : CoordInv st' := by
  obtain ⟨h1, h2, h3, h4⟩ := hi
  cases hs with
  | start hp =>
    refine ⟨Nat.le_succ_of_le h1, ?_, ?_, ?_⟩
    · rintro c hc
      rcases List.mem_cons.mp hc with rfl | hmem
      · exact ⟨h1, Nat.lt_succ_self _⟩
      · obtain ⟨ha, hb⟩ := h2 c hmem
        exact ⟨ha, Nat.lt_succ_of_lt hb⟩
    · intro i hi1 hi2
      have hlt2 : i < st.nextId + 1 := hi2
      by_cases hieq : i = st.nextId
      · exact ⟨CkptStatus.pending, by simp [hieq]⟩
      · have hlt : i < st.nextId := by omega
        obtain ⟨s, hmem⟩ := h3 i hi1 hlt
        exact ⟨s, List.mem_cons_of_mem _ hmem⟩
    · have hcount : pendingCount ⟨st.nextId + 1,
          (st.nextId, CkptStatus.pending) :: st.checkpoints⟩ =
          pendingCount st + 1 := by
        simp [pendingCount, List.filter_cons]
      have hgoal : pendingCount ⟨st.nextId + 1,
          (st.nextId, CkptStatus.pending) :: st.checkpoints⟩ ≤ 1 := by
        rw [hcount, hp]
      exact hgoal
  | @finish cid hmem =>
    refine ⟨h1, ?_, ?_, ?_⟩
    · rintro c hc
      obtain ⟨c0, hc0, rfl⟩ := List.mem_map.mp hc
      have hfst : ((if c0.1 == cid then (c0.1, CkptStatus.durable) else c0) :
          Nat × CkptStatus).1 = c0.1 := by
        by_cases hb : (c0.1 == cid) = true <;> simp [hb]
      rw [hfst]
      exact h2 c0 hc0
    · intro i hi1 hi2
      obtain ⟨s, hmem2⟩ := h3 i hi1 hi2
      exact setStatus_exists hmem2 cid CkptStatus.durable
    · exact le_trans
        (countPending_setStatus_le st.checkpoints cid CkptStatus.durable rfl) h4
  | @abortStep cid hmem =>
    refine ⟨h1, ?_, ?_, ?_⟩
    · rintro c hc
      obtain ⟨c0, hc0, rfl⟩ := List.mem_map.mp hc
      have hfst : ((if c0.1 == cid then (c0.1, CkptStatus.aborted) else c0) :
          Nat × CkptStatus).1 = c0.1 := by
        by_cases hb : (c0.1 == cid) = true <;> simp [hb]
      rw [hfst]
      exact h2 c0 hc0
    · intro i hi1 hi2
      obtain ⟨s, hmem2⟩ := h3 i hi1 hi2
      exact setStatus_exists hmem2 cid CkptStatus.aborted
    · exact le_trans
        (countPending_setStatus_le st.checkpoints cid CkptStatus.aborted rfl) h4

lemma coordReaches_inv {st st' : CoordState} {tr : List CoordEvent}
    (h : CoordReaches st tr st') (hi : CoordInv st) : CoordInv st' := by
  induction h with
  | done st => exact hi
  | step hs _ ih => exact ih (coordStep_inv hs hi)

lemma initCoord_inv : CoordInv initCoord :=
  ⟨le_refl 1, by simp [initCoord],
   fun i h1 h2 => absurd (lt_of_lt_of_le h2 h1) (lt_irrefl i),
   by simp [pendingCount, initCoord]⟩

/-- C3: in the modelled coordinator, every reachable state has at most one
PENDING checkpoint, and whenever the barrier for checkpoint n+1 begins
(a start step fires from a reachable state whose next id is n+1), the
preceding checkpoint n is already DURABLE or ABORTED. -/
theorem C3_checkpoint_total_order :
    (∀ tr st, CoordReaches initCoord tr st → pendingCount st ≤ 1) ∧
    (∀ tr st st' n, CoordReaches initCoord tr st →
      CoordStep st CoordEvent.startCkpt st' →
      n + 1 = st.nextId → 1 ≤ n →
      ∃ s, (n, s) ∈ st.checkpoints ∧
        (s = CkptStatus.durable ∨ s = CkptStatus.aborted)) := by
  constructor
  · intro tr st h
    exact (coordReaches_inv h initCoord_inv).2.2.2
  · intro tr st st' n hr hstep hn hn1
    obtain ⟨h1, h2, h3, h4⟩ := coordReaches_inv hr initCoord_inv
    obtain ⟨s, hmem⟩ := h3 n hn1 (by omega)
    refine ⟨s, hmem, ?_⟩
    cases hstep with
    | start hp =>
      cases s with
      | pending => exact absurd (pending_mem_count hmem) (by omega)
      | durable => exact Or.inl rfl
      | aborted => exact Or.inr rfl

/-- Witness for C3 on the concrete trace start, finish 1, start: when the
barrier for checkpoint 2 begins, checkpoint 1 is DURABLE. -/
theorem C3_checkpoint_total_order_witness :
    ∃ s, ((1 : Nat), s) ∈ ([(1, CkptStatus.durable)] : List (Nat × CkptStatus)) ∧
      (s = CkptStatus.durable ∨ s = CkptStatus.aborted) :=
  C3_checkpoint_total_order.2 [CoordEvent.startCkpt, CoordEvent.finishCkpt 1]
    ⟨2, [(1, CkptStatus.durable)]⟩
    ⟨3, [(2, CkptStatus.pending), (1, CkptStatus.durable)]⟩ 1
    (CoordReaches.step (CoordStep.start rfl)
      (CoordReaches.step (CoordStep.finish (by decide))
        (CoordReaches.done _)))
    (CoordStep.start rfl) rfl (le_refl 1)

/-- Modelled from the spec: the lifecycle state of a segment. The
partitioned file sink that owns segments is engine code, not among this
repository's sources; it is modelled from the data-model and commit-policy
sections of the spec. -/
inductive SegState where
  | opened
  | closed
  | committed
deriving DecidableEq

/-- Modelled from the spec: one physical output unit holding records of one
partition between two checkpoints. -/
structure Segment where
  partitionKey : Nat
  segmentId : Nat
  state : SegState
  createdAtCheckpoint : Nat
  recordCount : Nat
deriving DecidableEq

/-- Modelled from the spec: the persisted sink-side state read by the
commit policy — segment metadata, the already-written commit markers, the
last-durable-checkpoint watermark, and the time each checkpoint became
durable. -/
structure SinkState where
  segments : List Segment
  markers : List (Nat × Nat)
  lastDurable : Nat
  durableAt : List (Nat × Nat)
deriving DecidableEq

/-- Modelled from the spec: a segment is commit-eligible when it is CLOSED,
its closing checkpoint is at or before the last durable watermark, and the
commit delay has elapsed since that checkpoint became durable. -/
def segmentEligible (delay now lastDurable : Nat) (durableAt : List (Nat × Nat))
    (s : Segment) : Bool :=
  (s.state == SegState.closed) &&
  (decide (s.createdAtCheckpoint ≤ lastDurable)) &&
  (match durableAt.lookup s.createdAtCheckpoint with
   | some t => decide (t + delay ≤ now)
   | none => false)

/-- Modelled from the spec: writing a commit marker that is already present
is a no-op, not an error. -/
def writeMarker (ms : List (Nat × Nat)) (pk cid : Nat) : List (Nat × Nat) :=
  if (pk, cid) ∈ ms then ms else ms ++ [(pk, cid)]

/-- The update one commit pass applies to a single segment: an eligible
segment transitions to COMMITTED, any other is left alone. -/
def commitSegUpdate (delay now lastDurable : Nat) (durableAt : List (Nat × Nat))
    (s : Segment) : Segment :=
  if segmentEligible delay now lastDurable durableAt s then
    { s with state := SegState.committed }
  else s

/-- The marker accumulation of one commit pass: an eligible segment has its
partition marker written for its closing checkpoint. -/
def commitMarkerFold (delay now lastDurable : Nat) (durableAt : List (Nat × Nat))
    (ms : List (Nat × Nat)) (s : Segment) : List (Nat × Nat) :=
  if segmentEligible delay now lastDurable durableAt s then
    writeMarker ms s.partitionKey s.createdAtCheckpoint
  else ms

/-- Modelled from the spec: one evaluate-and-commit pass of the partition
commit policy at the given time, over the persisted state. -/
def commitStep (delay now : Nat) (st : SinkState) : SinkState :=
  { st with
    segments := st.segments.map
      (commitSegUpdate delay now st.lastDurable st.durableAt),
    markers := st.segments.foldl
      (commitMarkerFold delay now st.lastDurable st.durableAt) st.markers }

/-- The committed segments of a sink state. -/
def committedSegments (st : SinkState) : List Segment :=
  st.segments.filter fun s => s.state == SegState.committed

lemma eligible_update_false (delay now lastDurable : Nat)
    (durableAt : List (Nat × Nat)) (s : Segment) :
    segmentEligible delay now lastDurable durableAt
      (commitSegUpdate delay now lastDurable durableAt s) = false := by
  cases hb : segmentEligible delay now lastDurable durableAt s with
  | false =>
    rw [commitSegUpdate, if_neg (by simp [hb])]
    exact hb
  | true =>
    rw [show commitSegUpdate delay now lastDurable durableAt s =
      { s with state := SegState.committed } by rw [commitSegUpdate, if_pos hb]]
    simp [segmentEligible]

lemma commitSegUpdate_of_not_eligible (delay now lastDurable : Nat)
    (durableAt : List (Nat × Nat)) (s : Segment)
    (h : segmentEligible delay now lastDurable durableAt s = false) :
    commitSegUpdate delay now lastDurable durableAt s = s := by
  simp [commitSegUpdate, h]

lemma commitSegUpdate_idem (delay now lastDurable : Nat)
    (durableAt : List (Nat × Nat)) (s : Segment) :
    commitSegUpdate delay now lastDurable durableAt
      (commitSegUpdate delay now lastDurable durableAt s) =
    commitSegUpdate delay now lastDurable durableAt s :=
  commitSegUpdate_of_not_eligible _ _ _ _ _
    (eligible_update_false delay now lastDurable durableAt s)

lemma foldl_markers_noop (delay now lastDurable : Nat)
    (durableAt : List (Nat × Nat)) :
    ∀ (l : List Segment) (ms : List (Nat × Nat)),
      (∀ s ∈ l, segmentEligible delay now lastDurable durableAt s = false) →
      l.foldl (commitMarkerFold delay now lastDurable durableAt) ms = ms := by
  intro l
  induction l with
  | nil => intro ms _; rfl
  | cons s tl ih =>
    intro ms h
    have hs := h s (List.mem_cons_self s tl)
    rw [List.foldl_cons,
      show commitMarkerFold delay now lastDurable durableAt ms s = ms by
        simp [commitMarkerFold, hs]]
    exact ih ms fun s2 hs2 => h s2 (List.mem_cons_of_mem _ hs2)

lemma commitStep_idem (delay now : Nat) (st : SinkState) :
    commitStep delay now (commitStep delay now st) = commitStep delay now st := by
  have hmap :
      ((st.segments.map (commitSegUpdate delay now st.lastDurable st.durableAt)).map
        (commitSegUpdate delay now st.lastDurable st.durableAt)) =
      st.segments.map (commitSegUpdate delay now st.lastDurable st.durableAt) := by
    rw [List.map_map]
    apply List.map_congr_left
    intro s _
    exact commitSegUpdate_idem delay now st.lastDurable st.durableAt s
  have hfold :
      ((st.segments.map (commitSegUpdate delay now st.lastDurable st.durableAt)).foldl
        (commitMarkerFold delay now st.lastDurable st.durableAt)
        (st.segments.foldl
          (commitMarkerFold delay now st.lastDurable st.durableAt) st.markers)) =
      st.segments.foldl
        (commitMarkerFold delay now st.lastDurable st.durableAt) st.markers := by
    apply foldl_markers_noop
    intro s2 hs2
    obtain ⟨s0, _, rfl⟩ := List.mem_map.mp hs2
    exact eligible_update_false delay now st.lastDurable st.durableAt s0
  show SinkState.mk _ _ _ _ = SinkState.mk _ _ _ _
  rw [SinkState.mk.injEq]
  exact ⟨hmap, hfold, rfl, rfl⟩

/-- C4: the commit step is idempotent. Writing a commit marker twice for
the same partition and checkpoint is a no-op rather than an error, a
marker write preserves distinctness of the marker set, and running the
commit policy evaluate-and-commit pass twice on the same persisted state
yields the very same state — in particular the same committed segment set
— writing no duplicate data. -/
theorem C4_commit_idempotent :
    (∀ ms pk cid, writeMarker (writeMarker ms pk cid) pk cid =
      writeMarker ms pk cid) ∧
    (∀ delay now st, commitStep delay now (commitStep delay now st) =
      commitStep delay now st) ∧
    (∀ delay now st,
      committedSegments (commitStep delay now (commitStep delay now st)) =
        committedSegments (commitStep delay now st)) ∧
    (∀ ms pk cid, ms.Nodup → (writeMarker ms pk cid).Nodup) := by
  refine ⟨?_, commitStep_idem, ?_, ?_⟩
  · intro ms pk cid
    by_cases h : (pk, cid) ∈ ms
    · simp [writeMarker, h]
    · simp [writeMarker, h]
  · intro delay now st
    rw [commitStep_idem]
  · intro ms pk cid hnd
    by_cases h : (pk, cid) ∈ ms
    · simpa [writeMarker, h]
    · rw [writeMarker, if_neg h, ← List.concat_eq_append]
      exact List.Nodup.concat h hnd

/-- Witness for C4 at a concrete distinct marker list. -/
theorem C4_commit_idempotent_witness :
    (writeMarker [((3 : Nat), (7 : Nat))] 4 7).Nodup :=
  C4_commit_idempotent.2.2.2 [(3, 7)] 4 7 (by decide)

/-- The character of a decimal digit. -/
def digitChar (d : Nat) : Char := Char.ofNat (48 + d)

/-- Decimal rendering of a natural number as a char list, used by the
modelled output layout. -/
def natStrL (n : Nat) : List Char := (Nat.digits 10 n).reverse.map digitChar

/-- Decimal rendering of a natural number as a string. -/
def natStr (n : Nat) : String := String.mk (natStrL n)

lemma natStr_data (n : Nat) : (natStr n).data = natStrL n := rfl

lemma digitChar_inj : ∀ d, d < 10 → ∀ e, e < 10 → digitChar d = digitChar e → d = e := by
  decide

lemma digitChar_ne_slash : ∀ d, d < 10 → digitChar d ≠ '/' := by decide

lemma mapDigitChar_inj : ∀ (l1 l2 : List Nat), (∀ d ∈ l1, d < 10) →
    (∀ d ∈ l2, d < 10) → l1.map digitChar = l2.map digitChar → l1 = l2 := by
  intro l1
  induction l1 with
  | nil =>
    intro l2 _ _ h
    cases l2 with
    | nil => rfl
    | cons d tl => simp at h
  | cons d tl ih =>
    intro l2 h1 h2 h
    cases l2 with
    | nil => simp at h
    | cons e tl2 =>
      simp only [List.map_cons, List.cons.injEq] at h
      obtain ⟨hde, htl⟩ := h
      have hd : d < 10 := h1 d (List.mem_cons_self _ _)
      have he : e < 10 := h2 e (List.mem_cons_self _ _)
      have hde2 : d = e := digitChar_inj d hd e he hde
      subst hde2
      rw [ih tl2 (fun x hx => h1 x (List.mem_cons_of_mem _ hx))
        (fun x hx => h2 x (List.mem_cons_of_mem _ hx)) htl]

lemma natStrL_no_slash (n : Nat) : ∀ c ∈ natStrL n, c ≠ '/' := by
  intro c hc
  obtain ⟨d, hd, rfl⟩ := List.mem_map.mp hc
  exact digitChar_ne_slash d (Nat.digits_lt_base (by norm_num) (List.mem_reverse.mp hd))

lemma natStrL_inj {m n : Nat} (h : natStrL m = natStrL n) : m = n := by
  have hm : ∀ d ∈ (Nat.digits 10 m).reverse, d < 10 := fun d hd =>
    Nat.digits_lt_base (by norm_num) (List.mem_reverse.mp hd)
  have hn : ∀ d ∈ (Nat.digits 10 n).reverse, d < 10 := fun d hd =>
    Nat.digits_lt_base (by norm_num) (List.mem_reverse.mp hd)
  exact Nat.digits.injective 10 (List.reverse_injective (mapDigitChar_inj _ _ hm hn h))

lemma split_at_slash : ∀ (u1 u2 v1 v2 : List Char),
    (∀ c ∈ u1, c ≠ '/') → (∀ c ∈ u2, c ≠ '/') →
    u1 ++ '/' :: v1 = u2 ++ '/' :: v2 → u1 = u2 ∧ v1 = v2 := by
  intro u1
  induction u1 with
  | nil =>
    intro u2 v1 v2 _ h2 h
    cases u2 with
    | nil =>
      simp only [List.nil_append] at h
      injection h with _ htl
      exact ⟨rfl, htl⟩
    | cons c tl =>
      simp only [List.nil_append, List.cons_append] at h
      injection h with hc _
      exact absurd hc.symm (h2 c (List.mem_cons_self _ _))
  | cons c tl ih =>
    intro u2 v1 v2 h1 h2 h
    cases u2 with
    | nil =>
      simp only [List.nil_append, List.cons_append] at h
      injection h with hc _
      exact absurd hc (h1 c (List.mem_cons_self _ _))
    | cons d tl2 =>
      simp only [List.cons_append] at h
      injection h with hc htl
      subst hc
      obtain ⟨ha, hb⟩ := ih tl2 v1 v2 (fun x hx => h1 x (List.mem_cons_of_mem _ hx))
        (fun x hx => h2 x (List.mem_cons_of_mem _ hx)) htl
      exact ⟨by rw [ha], hb⟩

/-- Modelled from the spec: the output file layout of the partitioned file
sink, which is engine code not among this repository's sources: one
directory per partition key under the configured base path. -/
def partitionDir (basePath : String) (pk : Nat) : String :=
  basePath ++ "sensor_id=" ++ natStr pk ++ "/"

/-- Modelled from the spec: the object path of one committed segment, a
discrete file inside its partition directory. -/
def segmentFilePath (basePath : String) (pk sid : Nat) : String :=
  partitionDir basePath pk ++ "part-" ++ natStr sid

/-- Modelled from the spec: the success-marker object of a partition, a
sibling of that partition's segment files inside the same directory. -/
def successMarkerPath (basePath : String) (pk : Nat) : String :=
  partitionDir basePath pk ++ "_SUCCESS"

lemma partitionDir_data (basePath : String) (pk : Nat) :
    (partitionDir basePath pk).data =
      basePath.data ++ ("sensor_id=".data ++ (natStrL pk ++ ['/'])) := by
  simp only [partitionDir, String.data_append, List.append_assoc, natStr_data]

lemma segmentFilePath_data (basePath : String) (pk sid : Nat) :
    (segmentFilePath basePath pk sid).data =
      basePath.data ++ ("sensor_id=".data ++ (natStrL pk ++
        ('/' :: ("part-".data ++ natStrL sid)))) := by
  simp only [segmentFilePath, partitionDir, String.data_append, List.append_assoc,
    natStr_data]
  simp only [List.singleton_append]

lemma successMarkerPath_data (basePath : String) (pk : Nat) :
    (successMarkerPath basePath pk).data =
      basePath.data ++ ("sensor_id=".data ++ (natStrL pk ++
        ('/' :: "_SUCCESS".data))) := by
  simp only [successMarkerPath, partitionDir, String.data_append, List.append_assoc,
    natStr_data]
  simp only [List.singleton_append]

lemma partitionDir_inj {basePath : String} {pk pk' : Nat}
    (h : partitionDir basePath pk = partitionDir basePath pk') : pk = pk' := by
  have hd := congrArg String.data h
  rw [partitionDir_data, partitionDir_data] at hd
  have h1 := List.append_cancel_left hd
  have h2 := List.append_cancel_left h1
  exact natStrL_inj (List.append_cancel_right h2)

lemma segmentFilePath_inj {basePath : String} {pk sid pk' sid' : Nat}
    (h : segmentFilePath basePath pk sid = segmentFilePath basePath pk' sid') :
    pk = pk' ∧ sid = sid' := by
  have hd := congrArg String.data h
  rw [segmentFilePath_data, segmentFilePath_data] at hd
  have h1 := List.append_cancel_left hd
  have h2 := List.append_cancel_left h1
  obtain ⟨hpk, hrest⟩ := split_at_slash _ _ _ _ (natStrL_no_slash pk)
    (natStrL_no_slash pk') h2
  exact ⟨natStrL_inj hpk, natStrL_inj (List.append_cancel_left hrest)⟩

lemma successMarker_ne_segmentFile (basePath : String) (pk pk' sid : Nat) :
    successMarkerPath basePath pk ≠ segmentFilePath basePath pk' sid := by
  intro h
  have hd := congrArg String.data h
  rw [successMarkerPath_data, segmentFilePath_data] at hd
  have h1 := List.append_cancel_left hd
  have h2 := List.append_cancel_left h1
  obtain ⟨_, hrest⟩ := split_at_slash _ _ _ _ (natStrL_no_slash pk)
    (natStrL_no_slash pk') h2
  rw [show ("_SUCCESS" : String).data = '_' :: "SUCCESS".data from rfl,
    show ("part-" : String).data = 'p' :: "art-".data from rfl,
    List.cons_append] at hrest
  injection hrest with hc _
  exact absurd hc (by decide)

/-- C6: the S3Sink sink table is partitioned by sensor_id with the
success-file commit policy and writes under the configured bucket path;
in the modelled layout each partition key owns its own directory under
the base path, distinct segments are discrete files (the path map is
injective), and the success marker of a partition is a sibling object in
that partition's directory, distinct from every segment file. -/
theorem C6_output_layout :
    (∀ b, partitionedByOf (sensorsOutTable b) = ["sensor_id"] ∧
      (sensorsOutOptions b).lookup "sink.partition-commit.policy.kind" =
        some "success-file" ∧
      (sensorsOutOptions b).lookup "path" =
        some ("s3a://" ++ b ++ "/pyflinkl-filesink-example-output/")) ∧
    (∀ basePath : String, ∀ pk pk' : Nat,
      partitionDir basePath pk = partitionDir basePath pk' → pk = pk') ∧
    (∀ basePath : String, ∀ pk sid pk' sid' : Nat,
      segmentFilePath basePath pk sid = segmentFilePath basePath pk' sid' →
      pk = pk' ∧ sid = sid') ∧
    (∀ basePath : String, ∀ pk : Nat,
      successMarkerPath basePath pk = partitionDir basePath pk ++ "_SUCCESS") ∧
    (∀ basePath : String, ∀ pk pk' sid : Nat,
      successMarkerPath basePath pk ≠ segmentFilePath basePath pk' sid) := by
  refine ⟨fun b => ⟨rfl, rfl, rfl⟩, ?_, ?_, fun basePath pk => rfl, ?_⟩
  · intro basePath pk pk' h
    exact partitionDir_inj h
  · intro basePath pk sid pk' sid' h
    exact segmentFilePath_inj h
  · intro basePath pk pk' sid
    exact successMarker_ne_segmentFile basePath pk pk' sid

/-- Witness for C6 at concrete paths: applying the injectivity parts at
equal concrete paths. -/
theorem C6_output_layout_witness :
    (10 : Nat) = 10 ∧ ((12 : Nat) = 12 ∧ (3 : Nat) = 3) :=
  ⟨C6_output_layout.2.1 "s3a://b/out/" 10 10 rfl,
   C6_output_layout.2.2.1 "s3a://b/out/" 12 3 12 3 rfl⟩
